import Mathlib

/-!
# Verification of the fossil-time date/span core

Shallow embedding of the C sources of fossil-time
(`src/code/logic/date.c`, `calendar.c`, `span.c` and the maximal
`fossil_time_date_t` header) into Lean, together with proofs of the
specification claims.

Modelling conventions:
* C fixed-width integer fields (`int32_t`, `int16_t`, `int8_t`, `int64_t`)
  are modelled as unbounded `Int`; every claim that depends on concrete
  ranges carries those ranges as hypotheses, and no input considered by a
  claim ever overflows its C type.
* C truncating division `/` and remainder `%` are modelled by `Int.tdiv`
  and `Int.tmod`.
* The `uint64_t precision_mask` is a `Nat`; bit tests mirror the C
  `mask & BIT` truthiness tests.
* `snprintf`-based formatting is modelled as `String` construction,
  assuming a sufficiently large output buffer (the claims under study
  only concern buffer contents, never truncation).
* The libc functions `gmtime_r` and `timegm`/`mktime`(UTC) used by
  `date.c` are modelled by their documented behaviour on in-range
  arguments: conversion between an epoch second count and the proleptic
  Gregorian UTC calendar (implemented here with the standard
  civil-from-days algorithm, the exact inverse of the repository's own
  `fossil_time_days_from_civil`).
-/

namespace Fossil

/-! ## The maximal date structure (`fossil_time_date_t`, date.h) -/

/-- `fossil_time_date_t`: the maximal-precision date struct from the
repository's date header (calendar, clock, SI sub-second ladder, derived
fields, timezone offset, precision mask). -/
structure Date where
  year : Int
  month : Int
  day : Int
  hour : Int
  minute : Int
  second : Int
  millisecond : Int
  microsecond : Int
  nanosecond : Int
  picosecond : Int
  femtosecond : Int
  attosecond : Int
  zeptosecond : Int
  yoctosecond : Int
  weekday : Int
  yearday : Int
  tz_offset_min : Int
  precision_mask : Nat
deriving DecidableEq, Repr

/-- `FOSSIL_TIME_PRECISION_YEAR` (1 << 0). -/
def PRECISION_YEAR : Nat := 1
/-- `FOSSIL_TIME_PRECISION_MONTH` (1 << 1). -/
def PRECISION_MONTH : Nat := 2
/-- `FOSSIL_TIME_PRECISION_DAY` (1 << 2). -/
def PRECISION_DAY : Nat := 4
/-- `FOSSIL_TIME_PRECISION_HOUR` (1 << 3). -/
def PRECISION_HOUR : Nat := 8
/-- `FOSSIL_TIME_PRECISION_MINUTE` (1 << 4). -/
def PRECISION_MINUTE : Nat := 16
/-- `FOSSIL_TIME_PRECISION_SECOND` (1 << 5). -/
def PRECISION_SECOND : Nat := 32
/-- `FOSSIL_TIME_PRECISION_MILLI` (1 << 6). -/
def PRECISION_MILLI : Nat := 64
/-- `FOSSIL_TIME_PRECISION_MICRO` (1 << 7). -/
def PRECISION_MICRO : Nat := 128
/-- `FOSSIL_TIME_PRECISION_NANO` (1 << 8). -/
def PRECISION_NANO : Nat := 256
/-- `FOSSIL_TIME_PRECISION_PICO` (1 << 9). -/
def PRECISION_PICO : Nat := 512
/-- `FOSSIL_TIME_PRECISION_FEMTO` (1 << 10). -/
def PRECISION_FEMTO : Nat := 1024
/-- `FOSSIL_TIME_PRECISION_ATTO` (1 << 11). -/
def PRECISION_ATTO : Nat := 2048
/-- `FOSSIL_TIME_PRECISION_ZEPTO` (1 << 12). -/
def PRECISION_ZEPTO : Nat := 4096
/-- `FOSSIL_TIME_PRECISION_YOCTO` (1 << 13). -/
def PRECISION_YOCTO : Nat := 8192

/-- C truthiness of `mask & BIT`. -/
def hasBit (mask bit : Nat) : Bool := mask &&& bit != 0

/-! ## date.c helpers -/

/-- `is_leap` (date.c): Gregorian leap-year rule, with C truncating `%`. -/
def is_leap (year : Int) : Bool :=
  (year.tmod 4 == 0 && year.tmod 100 != 0) || year.tmod 400 == 0

/-- `days_in_month` (date.c): leap-aware month length, 0 for an
out-of-range month. -/
def days_in_month (year month : Int) : Int :=
  if month == 2 && is_leap year then 29
  else if month < 1 || 12 < month then 0
  else [31, 28, 31, 30, 31, 30, 31, 31, 30, 31, 30, 31].getD (month - 1).toNat 0

/-- `fossil_time_days_from_civil` (date.c): Hinnant-style civil date to
day count relative to 1970-01-01. -/
def fossil_time_days_from_civil (y0 m d : Int) : Int :=
  let y := y0 - (if m ≤ 2 then 1 else 0)
  let era := (if 0 ≤ y then y else y - 399).tdiv 400
  let yoe := y - era * 400
  let doy := (153 * (m + (if 2 < m then -3 else 9)) + 2).tdiv 5 + d - 1
  let doe := yoe * 365 + yoe.tdiv 4 - yoe.tdiv 100 + doy
  era * 146097 + doe - 719468

/-- `fossil_time_tm_to_epoch_utc` (date.c), applied to the broken-down
fields directly: day count times 86400 plus the clock fields. -/
def fossil_time_tm_to_epoch_utc (y m d h mi s : Int) : Int :=
  fossil_time_days_from_civil y m d * 86400 + h * 3600 + mi * 60 + s

/-- Civil date from a day count relative to 1970-01-01 (Hinnant's
`civil_from_days`): the calendar part of the `gmtime_r` model. -/
def civilFromDays (z0 : Int) : Int × Int × Int :=
  let z := z0 + 719468
  let era := (if 0 ≤ z then z else z - 146096).tdiv 146097
  let doe := z - era * 146097
  let yoe := (doe - doe.tdiv 1460 + doe.tdiv 36524 - doe.tdiv 146096).tdiv 365
  let y := yoe + era * 400
  let doy := doe - (365 * yoe + yoe.tdiv 4 - yoe.tdiv 100)
  let mp := (5 * doy + 2).tdiv 153
  let d := doy - (153 * mp + 2).tdiv 5 + 1
  let m := mp + (if mp < 10 then 3 else -9)
  (y + (if m ≤ 2 then 1 else 0), m, d)

/-- Day of year (1-based) of a civil date: the `tm_yday + 1` that
`gmtime_r` reports. -/
def yeardayOfCivil (y m d : Int) : Int :=
  (List.range (m - 1).toNat).foldl (fun acc k => acc + days_in_month y (k + 1)) 0 + d

/-- Broken-down UTC time, as produced by the `gmtime_r` model
(`wday` is 0=Sunday..6=Saturday, `yday0` is the 0-based day of year). -/
structure Tm where
  year : Int
  month : Int
  day : Int
  hour : Int
  minute : Int
  second : Int
  wday : Int
  yday0 : Int
deriving DecidableEq, Repr

/-- Model of libc `gmtime_r`: decompose an epoch second count into the
broken-down proleptic-Gregorian UTC time (floor semantics on negative
times, as glibc implements). -/
def gmtime_model (t : Int) : Tm :=
  let days := t / 86400
  let rem := t % 86400
  let c := civilFromDays days
  { year := c.1, month := c.2.1, day := c.2.2,
    hour := rem / 3600, minute := rem % 3600 / 60, second := rem % 60,
    wday := (days + 4) % 7, yday0 := yeardayOfCivil c.1 c.2.1 c.2.2 - 1 }

/-! ## date.c core API -/

/-- `fossil_time_date_validate` (date.c): range-check exactly the fields
whose precision bit is set. -/
def fossil_time_date_validate (dt : Date) : Bool :=
  if hasBit dt.precision_mask PRECISION_MONTH && (dt.month < 1 || 12 < dt.month) then
    false
  else if hasBit dt.precision_mask PRECISION_DAY &&
      (dt.day < 1 || days_in_month dt.year dt.month < dt.day) then
    false
  else if hasBit dt.precision_mask PRECISION_HOUR && (dt.hour < 0 || 23 < dt.hour) then
    false
  else if hasBit dt.precision_mask PRECISION_MINUTE && (dt.minute < 0 || 59 < dt.minute) then
    false
  else if hasBit dt.precision_mask PRECISION_SECOND && (dt.second < 0 || 60 < dt.second) then
    false
  else
    true

/-- `fossil_time_date_normalize` (date.c): round-trip the six primary
fields through `timegm`/`gmtime_r` (modelled) and refresh only the
derived `weekday`/`yearday` fields. -/
def fossil_time_date_normalize (dt : Date) : Date :=
  let t := fossil_time_tm_to_epoch_utc dt.year dt.month dt.day dt.hour dt.minute dt.second
  let tm := gmtime_model t
  { dt with weekday := tm.wday, yearday := tm.yday0 + 1 }

/-- `fossil_time_date_compare` (date.c): lexicographic comparison over
year, month, day, hour, minute, second, millisecond, microsecond,
nanosecond; the precision mask is never consulted. -/
def fossil_time_date_compare (a b : Date) : Int :=
  if a.year ≠ b.year then (if a.year < b.year then -1 else 1)
  else if a.month ≠ b.month then (if a.month < b.month then -1 else 1)
  else if a.day ≠ b.day then (if a.day < b.day then -1 else 1)
  else if a.hour ≠ b.hour then (if a.hour < b.hour then -1 else 1)
  else if a.minute ≠ b.minute then (if a.minute < b.minute then -1 else 1)
  else if a.second ≠ b.second then (if a.second < b.second then -1 else 1)
  else if a.millisecond ≠ b.millisecond then (if a.millisecond < b.millisecond then -1 else 1)
  else if a.microsecond ≠ b.microsecond then (if a.microsecond < b.microsecond then -1 else 1)
  else if a.nanosecond ≠ b.nanosecond then (if a.nanosecond < b.nanosecond then -1 else 1)
  else 0

/-- `fossil_time_date_to_unix_seconds` (date.c). -/
def fossil_time_date_to_unix_seconds (dt : Date) : Int :=
  fossil_time_tm_to_epoch_utc dt.year dt.month dt.day dt.hour dt.minute dt.second
    - dt.tz_offset_min * 60

/-- `fossil_time_date_diff_seconds` (date.c). -/
def fossil_time_date_diff_seconds (a b : Date) : Int :=
  fossil_time_date_to_unix_seconds a - fossil_time_date_to_unix_seconds b

/-- `fossil_time_date_from_unix_seconds` (date.c): `memset` to zero,
decompose via `gmtime_r` (modelled), set the derived fields, zero
timezone offset, and the precision mask covering exactly
year..second. -/
def fossil_time_date_from_unix_seconds (seconds : Int) : Date :=
  let tm := gmtime_model seconds
  { year := tm.year, month := tm.month, day := tm.day,
    hour := tm.hour, minute := tm.minute, second := tm.second,
    millisecond := 0, microsecond := 0, nanosecond := 0,
    picosecond := 0, femtosecond := 0, attosecond := 0,
    zeptosecond := 0, yoctosecond := 0,
    weekday := tm.wday, yearday := tm.yday0 + 1,
    tz_offset_min := 0,
    precision_mask :=
      PRECISION_YEAR ||| PRECISION_MONTH ||| PRECISION_DAY |||
      PRECISION_HOUR ||| PRECISION_MINUTE ||| PRECISION_SECOND }

/-! ## calendar.c -/

/-- `days_in_month_internal` (calendar.c): same table as date.c's
`days_in_month`, with the range check performed first. -/
def days_in_month_internal (year month : Int) : Int :=
  if month < 1 || 12 < month then 0
  else if month == 2 && is_leap year then 29
  else [31, 28, 31, 30, 31, 30, 31, 31, 30, 31, 30, 31].getD (month - 1).toNat 0

/-- `compute_weekday` (calendar.c): Zeller's congruence (Gregorian),
converted to Sunday = 0, with C truncating `/` and `%`. -/
def compute_weekday (year0 month0 day : Int) : Int :=
  let year := if month0 < 3 then year0 - 1 else year0
  let month := if month0 < 3 then month0 + 12 else month0
  let k := year.tmod 100
  let j := year.tdiv 100
  let h := (day + (13 * (month + 1)).tdiv 5 + k + k.tdiv 4 + j.tdiv 4 + 5 * j).tmod 7
  (h + 6).tmod 7

/-- `compute_yearday` (calendar.c): days in the months before `month`
plus `day`. -/
def compute_yearday (year month day : Int) : Int :=
  (List.range (month - 1).toNat).foldl (fun acc k => acc + days_in_month_internal year (k + 1)) 0
    + day

/-- `fossil_time_calendar_is_leap_year` (calendar.c). -/
def fossil_time_calendar_is_leap_year (year : Int) : Bool := is_leap year

/-- `fossil_time_calendar_days_in_month` (calendar.c). -/
def fossil_time_calendar_days_in_month (year month : Int) : Int :=
  days_in_month_internal year month

/-- `fossil_time_calendar_compute_derived` (calendar.c): recompute
`weekday`/`yearday` when the YEAR, MONTH and DAY precision bits are all
present, otherwise set both to -1. -/
def fossil_time_calendar_compute_derived (dt : Date) : Date :=
  if hasBit dt.precision_mask PRECISION_YEAR &&
      hasBit dt.precision_mask PRECISION_MONTH &&
      hasBit dt.precision_mask PRECISION_DAY then
    { dt with weekday := compute_weekday dt.year dt.month dt.day,
              yearday := compute_yearday dt.year dt.month dt.day }
  else
    { dt with weekday := -1, yearday := -1 }

/-! ## span.c

The maximal `fossil_time_span_t` struct declaration (with its
`FOSSIL_TIME_SPAN_PRECISION_*` bit constants) is not among the provided
sources; only `span.c` and its callers are.  The field layout below is
taken from `span.c`'s member accesses and the spec's span data model
(`days` 64-bit; `hours`/`minutes`/`seconds` and the eight SI sub-second
rungs 32-bit signed; a precision bitmask with one bit per rung).  The
concrete bit positions never matter to the claims: `span.c` only copies
masks and combines them with `|`. -/

/-- `fossil_time_span_t`: duration value with per-rung precision mask. -/
structure Span where
  days : Int
  hours : Int
  minutes : Int
  seconds : Int
  milliseconds : Int
  microseconds : Int
  nanoseconds : Int
  picoseconds : Int
  femtoseconds : Int
  attoseconds : Int
  zeptoseconds : Int
  yoctoseconds : Int
  precision_mask : Nat
deriving DecidableEq, Repr

/-- Modelled from the spec: `FOSSIL_TIME_SPAN_PRECISION_DAYS` — the span
header carrying these bit constants is missing from the sources; one
distinct bit per rung, as the spec's 12-bit span mask describes. -/
def SPAN_PRECISION_DAYS : Nat := 1
/-- Modelled from the spec: `FOSSIL_TIME_SPAN_PRECISION_HOURS`. -/
def SPAN_PRECISION_HOURS : Nat := 2
/-- Modelled from the spec: `FOSSIL_TIME_SPAN_PRECISION_MINUTES`. -/
def SPAN_PRECISION_MINUTES : Nat := 4
/-- Modelled from the spec: `FOSSIL_TIME_SPAN_PRECISION_SECONDS`. -/
def SPAN_PRECISION_SECONDS : Nat := 8
/-- Modelled from the spec: `FOSSIL_TIME_SPAN_PRECISION_MILLI`. -/
def SPAN_PRECISION_MILLI : Nat := 16
/-- Modelled from the spec: `FOSSIL_TIME_SPAN_PRECISION_MICRO`. -/
def SPAN_PRECISION_MICRO : Nat := 32
/-- Modelled from the spec: `FOSSIL_TIME_SPAN_PRECISION_NANO`. -/
def SPAN_PRECISION_NANO : Nat := 64

/-- `fossil_time_span_validate` (span.c): unconditional range checks on
the clock rungs; the precision mask is never consulted. -/
def fossil_time_span_validate (s : Span) : Bool :=
  if s.hours < 0 || 24 ≤ s.hours then false
  else if s.minutes < 0 || 60 ≤ s.minutes then false
  else if s.seconds < 0 || 60 ≤ s.seconds then false
  else true

/-- `fossil_time_span_normalize` (span.c): ripple-carry from nanoseconds
up to days with C truncating `/` and `%`; the mask and the rungs below
nanoseconds are untouched. -/
def fossil_time_span_normalize (s : Span) : Span :=
  let us := s.microseconds + s.nanoseconds.tdiv 1000
  let ns := s.nanoseconds.tmod 1000
  let ms := s.milliseconds + us.tdiv 1000
  let us2 := us.tmod 1000
  let sec := s.seconds + ms.tdiv 1000
  let ms2 := ms.tmod 1000
  let mn := s.minutes + sec.tdiv 60
  let sec2 := sec.tmod 60
  let hr := s.hours + mn.tdiv 60
  let mn2 := mn.tmod 60
  let dy := s.days + hr.tdiv 24
  let hr2 := hr.tmod 24
  { s with days := dy, hours := hr2, minutes := mn2, seconds := sec2,
           milliseconds := ms2, microseconds := us2, nanoseconds := ns }

/-- `fossil_time_span_add` (span.c): field-wise addition of every rung,
result mask is the bitwise OR. -/
def fossil_time_span_add (a b : Span) : Span :=
  { days := a.days + b.days,
    hours := a.hours + b.hours,
    minutes := a.minutes + b.minutes,
    seconds := a.seconds + b.seconds,
    milliseconds := a.milliseconds + b.milliseconds,
    microseconds := a.microseconds + b.microseconds,
    nanoseconds := a.nanoseconds + b.nanoseconds,
    picoseconds := a.picoseconds + b.picoseconds,
    femtoseconds := a.femtoseconds + b.femtoseconds,
    attoseconds := a.attoseconds + b.attoseconds,
    zeptoseconds := a.zeptoseconds + b.zeptoseconds,
    yoctoseconds := a.yoctoseconds + b.yoctoseconds,
    precision_mask := a.precision_mask ||| b.precision_mask }

/-- `fossil_time_span_sub` (span.c): field-wise subtraction of every
rung (no borrowing), result mask is the bitwise OR. -/
def fossil_time_span_sub (a b : Span) : Span :=
  { days := a.days - b.days,
    hours := a.hours - b.hours,
    minutes := a.minutes - b.minutes,
    seconds := a.seconds - b.seconds,
    milliseconds := a.milliseconds - b.milliseconds,
    microseconds := a.microseconds - b.microseconds,
    nanoseconds := a.nanoseconds - b.nanoseconds,
    picoseconds := a.picoseconds - b.picoseconds,
    femtoseconds := a.femtoseconds - b.femtoseconds,
    attoseconds := a.attoseconds - b.attoseconds,
    zeptoseconds := a.zeptoseconds - b.zeptoseconds,
    yoctoseconds := a.yoctoseconds - b.yoctoseconds,
    precision_mask := a.precision_mask ||| b.precision_mask }

/-! ## Formatting (date.c)

`snprintf` into a sufficiently large buffer is modelled as `String`
construction; the `%0Nd` conversions are modelled exactly (zero padding
to the field width, sign included in the width). -/

/-- Left-pad with `'0'` up to width `w`. -/
def padZeros (w : Nat) (s : String) : String :=
  if s.length < w then String.mk (List.replicate (w - s.length) '0') ++ s else s

/-- `printf`-style `%0<w>d` for an integer. -/
def fmtSigned (w : Nat) (n : Int) : String :=
  if n < 0 then "-" ++ padZeros (w - 1) (toString n.natAbs) else padZeros w (toString n.natAbs)

/-- Drop trailing `'0'` characters (the sub-second trimming loop in
`fossil_time_date_format`). -/
def trimTrailZeros (s : String) : String :=
  String.mk ((s.toList.reverse.dropWhile (· == '0')).reverse)

/-- `fossil_time_date_format` (date.c, final variant): mask-gated
field-by-field rendering; the only use of `format_id` is the `"log"`
fallback when nothing was written.  Returns the buffer contents (an
untouched buffer is returned as `""`). -/
def fossil_time_date_format (dt : Date) (format_id : String) : String :=
  let datePart :=
    (if hasBit dt.precision_mask PRECISION_YEAR then fmtSigned 4 dt.year else "")
    ++ (if hasBit dt.precision_mask PRECISION_MONTH then "-" ++ fmtSigned 2 dt.month else "")
    ++ (if hasBit dt.precision_mask PRECISION_DAY then "-" ++ fmtSigned 2 dt.day else "")
  let timePart :=
    if hasBit dt.precision_mask (PRECISION_HOUR ||| PRECISION_MINUTE ||| PRECISION_SECOND) then
      let h := if hasBit dt.precision_mask PRECISION_HOUR then dt.hour else 0
      let m := if hasBit dt.precision_mask PRECISION_MINUTE then dt.minute else 0
      let s := if hasBit dt.precision_mask PRECISION_SECOND then dt.second else 0
      let subsec :=
        (if hasBit dt.precision_mask PRECISION_MILLI then fmtSigned 3 dt.millisecond else "")
        ++ (if hasBit dt.precision_mask PRECISION_MICRO then fmtSigned 3 dt.microsecond else "")
        ++ (if hasBit dt.precision_mask PRECISION_NANO then fmtSigned 3 dt.nanosecond else "")
        ++ (if hasBit dt.precision_mask PRECISION_PICO then fmtSigned 3 dt.picosecond else "")
        ++ (if hasBit dt.precision_mask PRECISION_FEMTO then fmtSigned 3 dt.femtosecond else "")
        ++ (if hasBit dt.precision_mask PRECISION_ATTO then fmtSigned 3 dt.attosecond else "")
        ++ (if hasBit dt.precision_mask PRECISION_ZEPTO then fmtSigned 3 dt.zeptosecond else "")
        ++ (if hasBit dt.precision_mask PRECISION_YOCTO then fmtSigned 3 dt.yoctosecond else "")
      let trimmed := trimTrailZeros subsec
      "T" ++ fmtSigned 2 h ++ ":" ++ fmtSigned 2 m ++ ":" ++ fmtSigned 2 s
        ++ (if trimmed.isEmpty then "" else "." ++ trimmed) ++ "Z"
    else ""
  let out := datePart ++ timePart
  if format_id == "log" && out.isEmpty then
    fmtSigned 4 dt.year ++ fmtSigned 2 dt.month ++ fmtSigned 2 dt.day ++ "-"
      ++ fmtSigned 2 dt.hour ++ fmtSigned 2 dt.minute ++ fmtSigned 2 dt.second
  else out

/-! ## Search DSL (date.c)

The helpers mirror `date.c`'s static functions.  The `sscanf` calls are
modelled by hand-written tokenizers with exact scanf semantics for the
fixed format strings involved (a format-string space skips any
whitespace run, `%s` skips leading whitespace and reads a nonempty
maximal non-whitespace token, `%[...]` reads a nonempty maximal run from
the scanset with no whitespace skip, `%d` skips whitespace and reads an
optionally signed digit run, and literal characters match exactly); the
31-character field-width caps are immaterial for every query the claims
touch and are not modelled. -/

/-- ASCII `tolower` (C locale). -/
def cLower (c : Char) : Char :=
  if 'A' ≤ c && c ≤ 'Z' then Char.ofNat (c.toNat + 32) else c

/-- ASCII `isdigit`. -/
def cIsDigit (c : Char) : Bool := '0' ≤ c && c ≤ '9'

/-- ASCII `isspace` (C locale). -/
def cIsSpace (c : Char) : Bool := c == ' ' || (9 ≤ c.toNat && c.toNat ≤ 13)

/-- Scanning loop of `fossil_match_char_class` (date.c): `i` is the C
index counter (starting at 1, just past the opening `'['`); returns the
match flag and the total count of pattern characters consumed
(closing `']'` included when present). -/
def classGo (c : Char) : List Char → Nat → Bool → Bool × Nat
  | [], i, m => (m, i)
  | ']' :: _, i, m => (m, i + 1)
  | a :: '-' :: b :: rest, i, m =>
      if b ≠ ']' then classGo c rest (i + 3) (m || (a ≤ c && c ≤ b))
      else classGo c ('-' :: b :: rest) (i + 1) (m || (c == a))
  | a :: rest, i, m => classGo c rest (i + 1) (m || (c == a))

/-- `fossil_match_char_class` (date.c): match `c` against the `[...]`
class opening `pattern`, returning the match flag and the number of
pattern characters consumed. -/
def fossil_match_char_class (c : Char) (pattern : List Char) : Bool × Nat :=
  classGo c (pattern.drop 1) 1 false

/-- `fossil_pattern_match` (date.c): case-insensitive glob matching with
`*`, `?` and `[...]` classes, recursive backtracking for `*`. -/
def fossil_pattern_match : List Char → List Char → Bool
  | s, [] => s.isEmpty
  | [], '*' :: p => if p.isEmpty then true else false
  | ch :: rest, '*' :: p =>
    if p.isEmpty then true
    else fossil_pattern_match (ch :: rest) p || fossil_pattern_match rest ('*' :: p)
  | [], '?' :: _ => false
  | _ :: rest, '?' :: p => fossil_pattern_match rest p
  | [], '[' :: _ => false
  | ch :: srest, '[' :: p =>
    let r := fossil_match_char_class ch ('[' :: p)
    if r.1 then fossil_pattern_match srest (('[' :: p).drop r.2) else false
  | [], _ :: _ => false
  | ch :: srest, q :: p => if cLower ch == cLower q then fossil_pattern_match srest p else false
termination_by s p => s.length + p.length
decreasing_by
  all_goals simp only [List.length_cons, List.length_drop]
  all_goals omega

/-- Digit-accumulation loop of `fossil_parse_int` (date.c): every
remaining character must be a digit. -/
def parseDigitsAll : List Char → Nat → Option Nat
  | [], acc => some acc
  | c :: rest, acc =>
      if cIsDigit c then parseDigitsAll rest (acc * 10 + (c.toNat - 48)) else none

/-- `fossil_parse_int` (date.c): optional leading `'-'`, then a nonempty
all-digit run; `none` models the 0 (failure) return. -/
def fossil_parse_int (s : List Char) : Option Int :=
  match s with
  | [] => none
  | _ =>
    let neg := match s with | '-' :: _ => true | _ => false
    let s1 := match s with | '-' :: rest => rest | _ => s
    match s1 with
    | [] => none
    | c :: _ =>
      if !cIsDigit c then none
      else
        match parseDigitsAll s1 0 with
        | none => none
        | some v => some (if neg then -(v : Int) else (v : Int))

/-- `fossil_cmp` (date.c): dispatch on the operator string. -/
def fossil_cmp (lhs : Int) (op : String) (rhs : Int) : Bool :=
  if op == "=" || op == "==" || op == "is" || op == "equals" then lhs == rhs
  else if op == "!=" || op == "is not" || op == "<>" || op == "not equals" then lhs != rhs
  else if op == "<" || op == "before" || op == "lt" || op == "less" then decide (lhs < rhs)
  else if op == ">" || op == "after" || op == "gt" || op == "greater" then decide (rhs < lhs)
  else if op == "<=" || op == "on or before" || op == "le" || op == "lte"
      || op == "less or equal" then decide (lhs ≤ rhs)
  else if op == ">=" || op == "on or after" || op == "ge" || op == "gte"
      || op == "greater or equal" then decide (rhs ≤ lhs)
  else false

/-- `fossil_time_date_get_field` (date.c): resolve a field-name glob
against the alias table, in source order. -/
def fossil_time_date_get_field (dt : Date) (field : String) : Option Int :=
  let f := field.toList
  if fossil_pattern_match "year".toList f || fossil_pattern_match "y".toList f then
    some dt.year
  else if fossil_pattern_match "month".toList f || fossil_pattern_match "mon".toList f
      || fossil_pattern_match "m".toList f then
    some dt.month
  else if fossil_pattern_match "day".toList f || fossil_pattern_match "d".toList f then
    some dt.day
  else if fossil_pattern_match "hour".toList f || fossil_pattern_match "h".toList f then
    some dt.hour
  else if fossil_pattern_match "minute".toList f || fossil_pattern_match "min".toList f then
    some dt.minute
  else if fossil_pattern_match "second".toList f || fossil_pattern_match "sec".toList f
      || fossil_pattern_match "s".toList f then
    some dt.second
  else if fossil_pattern_match "weekday".toList f || fossil_pattern_match "wday".toList f
      || fossil_pattern_match "dow".toList f then
    some dt.weekday
  else if fossil_pattern_match "yearday".toList f || fossil_pattern_match "yday".toList f then
    some dt.yearday
  else if fossil_pattern_match "millisecond".toList f || fossil_pattern_match "ms".toList f then
    some dt.millisecond
  else if fossil_pattern_match "microsecond".toList f || fossil_pattern_match "us".toList f then
    some dt.microsecond
  else if fossil_pattern_match "nanosecond".toList f || fossil_pattern_match "ns".toList f then
    some dt.nanosecond
  else if fossil_pattern_match "tz_offset".toList f || fossil_pattern_match "tz".toList f
      || fossil_pattern_match "offset".toList f then
    some dt.tz_offset_min
  else
    none

/-- Skip a whitespace run (a whitespace directive in a scanf format). -/
def skipWs (s : List Char) : List Char := s.dropWhile cIsSpace

/-- `%s` conversion: skip whitespace, then the maximal non-whitespace
token together with the rest (an empty token means conversion failure
at end of input). -/
def readTok (s : List Char) : List Char × List Char :=
  let s1 := skipWs s
  (s1.takeWhile (fun c => !cIsSpace c), s1.dropWhile (fun c => !cIsSpace c))

/-- `%[...]` conversion: maximal run from the scanset, no whitespace
skip. -/
def readSet (allowed : Char → Bool) (s : List Char) : List Char × List Char :=
  (s.takeWhile allowed, s.dropWhile allowed)

/-- Literal characters of a scanf format: each must match exactly. -/
def litMatch : List Char → List Char → Option (List Char)
  | [], s => some s
  | _ :: _, [] => none
  | c :: w, a :: s => if a == c then litMatch w s else none

/-- `%d` conversion: skip whitespace, optional sign, nonempty digit
run (stops at the first non-digit). -/
def readInt (s : List Char) : Option (Int × List Char) :=
  let s1 := skipWs s
  let sign : Option (Bool × List Char) :=
    match s1 with
    | '-' :: rest => some (true, rest)
    | '+' :: rest => some (false, rest)
    | _ => some (false, s1)
  match sign with
  | some (neg, s2) =>
    let ds := s2.takeWhile cIsDigit
    if ds.isEmpty then none
    else
      let v : Nat := ds.foldl (fun a c => a * 10 + (c.toNat - 48)) 0
      some (if neg then -(v : Int) else (v : Int), s2.dropWhile cIsDigit)
  | none => none

/-- `sscanf(query, "%31s %31[<>=!] %31s")` (first pattern of
`fossil_extract_operator`). -/
def scanSymbolic (q : List Char) : Option (String × String × String) :=
  let (f, r1) := readTok q
  if f.isEmpty then none
  else
    let r2 := skipWs r1
    let (op, r3) := readSet (fun c => c == '<' || c == '>' || c == '=' || c == '!') r2
    if op.isEmpty then none
    else
      let (v, _) := readTok r3
      if v.isEmpty then none else some (⟨f⟩, ⟨op⟩, ⟨v⟩)

/-- `sscanf(query, "%31s <kw1> <kw2> ... %31s")`: the English-operator
patterns of `fossil_extract_operator`. -/
def scanEnglish (kws : List (List Char)) (q : List Char) : Option (String × String) :=
  let (f, r1) := readTok q
  if f.isEmpty then none
  else
    match kws.foldl
        (fun acc w => match acc with
          | none => none
          | some r => litMatch w (skipWs r)) (some r1) with
    | none => none
    | some r2 =>
      let (v, _) := readTok r2
      if v.isEmpty then none else some (⟨f⟩, ⟨v⟩)

/-- `fossil_extract_operator` (date.c): symbolic pattern first, then the
English operator patterns in source order. -/
def fossil_extract_operator (q : List Char) : Option (String × String × String) :=
  match scanSymbolic q with
  | some r => some r
  | none =>
  match scanEnglish [['i','s'], ['n','o','t']] q with
  | some (f, v) => some (f, "!=", v)
  | none =>
  match scanEnglish [['i','s']] q with
  | some (f, v) => some (f, "=", v)
  | none =>
  match scanEnglish [['e','q','u','a','l','s']] q with
  | some (f, v) => some (f, "=", v)
  | none =>
  match scanEnglish [['b','e','f','o','r','e']] q with
  | some (f, v) => some (f, "<", v)
  | none =>
  match scanEnglish [['a','f','t','e','r']] q with
  | some (f, v) => some (f, ">", v)
  | none =>
  match scanEnglish [['o','n'], ['o','r'], ['b','e','f','o','r','e']] q with
  | some (f, v) => some (f, "<=", v)
  | none =>
  match scanEnglish [['o','n'], ['o','r'], ['a','f','t','e','r']] q with
  | some (f, v) => some (f, ">=", v)
  | none => none

/-- `sscanf(query, "%31s in %d..%d")`: the range pattern in
`fossil_time_date_search`. -/
def scanRange (q : List Char) : Option (String × Int × Int) :=
  let (f, r1) := readTok q
  if f.isEmpty then none
  else
    match litMatch ['i', 'n'] (skipWs r1) with
    | none => none
    | some r2 =>
      match readInt r2 with
      | none => none
      | some (a, r3) =>
        match litMatch ['.', '.'] r3 with
        | none => none
        | some r4 =>
          match readInt r4 with
          | none => none
          | some (b, _) => some (⟨f⟩, a, b)

/-- `fossil_time_date_search` (date.c): keyword literals, relative
keywords, field comparisons, ranges, weekday names — in source order.
The `now` pointer is modelled as an `Option`. -/
def fossil_time_date_search (dt : Date) (now : Option Date) (query : String) : Bool :=
  if query.isEmpty then false
  else if now.isSome && (query == "today" || query == "this day") then
    match now with
    | some n => dt.year == n.year && dt.month == n.month && dt.day == n.day
    | none => false
  else if query == "weekend" || query == "is weekend" then
    dt.weekday == 0 || dt.weekday == 6
  else if query == "weekday" || query == "is weekday" then
    decide (1 ≤ dt.weekday) && decide (dt.weekday ≤ 5)
  else if query == "leap year" then
    is_leap dt.year
  else if query == "first of month" then
    dt.day == 1
  else if query == "last of month" then
    dt.day == days_in_month dt.year dt.month
  else if now.isSome && (query == "past" || query == "in the past") then
    match now with
    | some n => decide (fossil_time_date_compare dt n < 0)
    | none => false
  else if now.isSome && (query == "future" || query == "in the future") then
    match now with
    | some n => decide (0 < fossil_time_date_compare dt n)
    | none => false
  else if now.isSome && (query == "before today" || query == "before now") then
    match now with
    | some n => decide (fossil_time_date_compare dt n < 0)
    | none => false
  else if now.isSome && (query == "after today" || query == "after now") then
    match now with
    | some n => decide (0 < fossil_time_date_compare dt n)
    | none => false
  else
    match fossil_extract_operator query.toList with
    | some (field, op, value) =>
      match fossil_time_date_get_field dt field with
      | none => false
      | some lhs =>
        match fossil_parse_int value.toList with
        | none => false
        | some rhs => fossil_cmp lhs op rhs
    | none =>
      match scanRange query.toList with
      | some (field, lo, hi) =>
        match fossil_time_date_get_field dt field with
        | some lhs => decide (lo ≤ lhs) && decide (lhs ≤ hi)
        | none => false
      | none =>
        let ql := query.toList.map cLower
        if ql == "sunday".toList then dt.weekday == 0
        else if ql == "monday".toList then dt.weekday == 1
        else if ql == "tuesday".toList then dt.weekday == 2
        else if ql == "wednesday".toList then dt.weekday == 3
        else if ql == "thursday".toList then dt.weekday == 4
        else if ql == "friday".toList then dt.weekday == 5
        else if ql == "saturday".toList then dt.weekday == 6
        else false

/-! ## Derived definitions used by the claims -/

/-- The spec's "epoch-day-count-derived weekday": the day count modulo 7
with 1970-01-01 (a Thursday) mapping to 4, Sunday = 0. -/
def epochWeekday (y m d : Int) : Int :=
  (fossil_time_days_from_civil y m d + 4) % 7

/-- Total of the seven carried rungs of a span, in nanoseconds: the
quantity the `fossil_time_span_normalize` ripple-carry preserves. -/
def spanCarriedNs (s : Span) : Int :=
  s.days * 86400000000000 + s.hours * 3600000000000 + s.minutes * 60000000000
    + s.seconds * 1000000000 + s.milliseconds * 1000000 + s.microseconds * 1000
    + s.nanoseconds

/-- Build a `fossil_time_date_t` the way the repository's tests do:
`memset` to zero, then set the primary fields and the mask. -/
def mkDate (y mo d h mi s : Int) (mask : Nat) : Date :=
  { year := y, month := mo, day := d, hour := h, minute := mi, second := s,
    millisecond := 0, microsecond := 0, nanosecond := 0,
    picosecond := 0, femtosecond := 0, attosecond := 0,
    zeptosecond := 0, yoctosecond := 0,
    weekday := 0, yearday := 0, tz_offset_min := 0, precision_mask := mask }

/-- One rung of a lexicographic comparison: the shape of every `CMP`
step in `fossil_time_date_compare` (compare `x` with `y`, falling back
to `k` on equality). -/
def cmpStep (x y k : Int) : Int :=
  if x ≠ y then (if x < y then -1 else 1) else k

/-- `YEAR|MONTH|DAY`. -/
def MASK_YMD : Nat := PRECISION_YEAR ||| PRECISION_MONTH ||| PRECISION_DAY

/-- `YEAR|MONTH|DAY|HOUR|MINUTE|SECOND`. -/
def MASK_YMDHMS : Nat :=
  PRECISION_YEAR ||| PRECISION_MONTH ||| PRECISION_DAY |||
  PRECISION_HOUR ||| PRECISION_MINUTE ||| PRECISION_SECOND

/-- A span literal with the seven carried rungs given explicitly and
zero everywhere below nanoseconds. -/
def mkSpan (dy h mi s ms us ns : Int) (mask : Nat) : Span :=
  { days := dy, hours := h, minutes := mi, seconds := s,
    milliseconds := ms, microseconds := us, nanoseconds := ns,
    picoseconds := 0, femtoseconds := 0, attoseconds := 0,
    zeptoseconds := 0, yoctoseconds := 0, precision_mask := mask }

end Fossil

namespace Fossil

/-! ## Theorems -/

/-- C4: `fossil_time_date_validate` checks the legal range only of the
fields whose precision bit is set (month 1-12, day
1..days_in_month(year, month), hour 0-23, minute 0-59, second 0-60) and
returns false exactly when some masked field is out of range; a value
with only the YEAR bit set validates true regardless of the other field
contents, and the same raw struct with the DAY bit also set, month=2 and
day=30 validates false. -/
theorem validate_masked_ranges (dt : Date) :
    (fossil_time_date_validate dt = true ↔
      ((hasBit dt.precision_mask PRECISION_MONTH = true →
          1 ≤ dt.month ∧ dt.month ≤ 12) ∧
       (hasBit dt.precision_mask PRECISION_DAY = true →
          1 ≤ dt.day ∧ dt.day ≤ days_in_month dt.year dt.month) ∧
       (hasBit dt.precision_mask PRECISION_HOUR = true →
          0 ≤ dt.hour ∧ dt.hour ≤ 23) ∧
       (hasBit dt.precision_mask PRECISION_MINUTE = true →
          0 ≤ dt.minute ∧ dt.minute ≤ 59) ∧
       (hasBit dt.precision_mask PRECISION_SECOND = true →
          0 ≤ dt.second ∧ dt.second ≤ 60)))
    ∧ fossil_time_date_validate
        { mkDate 2024 2 30 99 99 99 PRECISION_YEAR with
            millisecond := 5000, nanosecond := -7 } = true
    ∧ fossil_time_date_validate
        { mkDate 2024 2 30 99 99 99 (PRECISION_YEAR ||| PRECISION_DAY) with
            millisecond := 5000, nanosecond := -7 } = false := by
  refine ⟨?_, by decide, by decide⟩
  unfold fossil_time_date_validate
  split_ifs with h1 h2 h3 h4 h5
  · simp only [Bool.false_eq_true, false_iff]
    intro hR
    simp only [Bool.and_eq_true, Bool.or_eq_true, decide_eq_true_eq] at h1
    have := hR.1 h1.1
    omega
  · simp only [Bool.false_eq_true, false_iff]
    intro hR
    simp only [Bool.and_eq_true, Bool.or_eq_true, decide_eq_true_eq] at h2
    have := hR.2.1 h2.1
    omega
  · simp only [Bool.false_eq_true, false_iff]
    intro hR
    simp only [Bool.and_eq_true, Bool.or_eq_true, decide_eq_true_eq] at h3
    have := hR.2.2.1 h3.1
    omega
  · simp only [Bool.false_eq_true, false_iff]
    intro hR
    simp only [Bool.and_eq_true, Bool.or_eq_true, decide_eq_true_eq] at h4
    have := hR.2.2.2.1 h4.1
    omega
  · simp only [Bool.false_eq_true, false_iff]
    intro hR
    simp only [Bool.and_eq_true, Bool.or_eq_true, decide_eq_true_eq] at h5
    have := hR.2.2.2.2 h5.1
    omega
  · simp only [true_iff]
    simp only [Bool.and_eq_true, Bool.or_eq_true, decide_eq_true_eq, not_and,
      not_or] at h1 h2 h3 h4 h5
    exact ⟨fun hb => by have := h1 hb; omega,
           fun hb => by have := h2 hb; omega,
           fun hb => by have := h3 hb; omega,
           fun hb => by have := h4 hb; omega,
           fun hb => by have := h5 hb; omega⟩

theorem cmpStep_self (x k : Int) : cmpStep x x k = k := by
  unfold cmpStep
  simp

theorem cmpStep_neg (x y k j : Int) (h : k = -j) : cmpStep x y k = -cmpStep y x j := by
  unfold cmpStep
  split_ifs <;> omega

theorem cmpStep_eq_zero (x y k : Int) : cmpStep x y k = 0 ↔ (x = y ∧ k = 0) := by
  unfold cmpStep
  split_ifs <;> constructor <;> intro h <;> first | omega | simp_all

/-- C8: `fossil_time_date_compare` is the lexicographic comparison over
year, month, day, hour, minute, second, millisecond, microsecond,
nanosecond, stopping at the first differing field, returning 0 exactly
when all nine fields agree, never consulting the precision mask;
consequently `compare a b = -compare b a` and `compare a a = 0`. -/
theorem compare_lexicographic (a b : Date) (m1 m2 : Nat) :
    fossil_time_date_compare a a = 0
    ∧ fossil_time_date_compare a b = -fossil_time_date_compare b a
    ∧ (fossil_time_date_compare a b = 0 ↔
        (a.year = b.year ∧ a.month = b.month ∧ a.day = b.day ∧
         a.hour = b.hour ∧ a.minute = b.minute ∧ a.second = b.second ∧
         a.millisecond = b.millisecond ∧ a.microsecond = b.microsecond ∧
         a.nanosecond = b.nanosecond))
    ∧ fossil_time_date_compare
        { a with precision_mask := m1 } { b with precision_mask := m2 }
      = fossil_time_date_compare a b
    ∧ fossil_time_date_compare a b
      = (if a.year ≠ b.year then (if a.year < b.year then -1 else 1)
         else if a.month ≠ b.month then (if a.month < b.month then -1 else 1)
         else if a.day ≠ b.day then (if a.day < b.day then -1 else 1)
         else if a.hour ≠ b.hour then (if a.hour < b.hour then -1 else 1)
         else if a.minute ≠ b.minute then (if a.minute < b.minute then -1 else 1)
         else if a.second ≠ b.second then (if a.second < b.second then -1 else 1)
         else if a.millisecond ≠ b.millisecond then
           (if a.millisecond < b.millisecond then -1 else 1)
         else if a.microsecond ≠ b.microsecond then
           (if a.microsecond < b.microsecond then -1 else 1)
         else if a.nanosecond ≠ b.nanosecond then
           (if a.nanosecond < b.nanosecond then -1 else 1)
         else 0) := by
  have hform : ∀ u v : Date,
      fossil_time_date_compare u v
        = cmpStep u.year v.year (cmpStep u.month v.month (cmpStep u.day v.day
            (cmpStep u.hour v.hour (cmpStep u.minute v.minute
              (cmpStep u.second v.second (cmpStep u.millisecond v.millisecond
                (cmpStep u.microsecond v.microsecond
                  (cmpStep u.nanosecond v.nanosecond 0)))))))) :=
    fun _ _ => rfl
  refine ⟨?_, ?_, ?_, rfl, rfl⟩
  · rw [hform]
    simp [cmpStep_self]
  · rw [hform a b, hform b a]
    repeat apply cmpStep_neg
    norm_num
  · rw [hform a b]
    simp only [cmpStep_eq_zero]
    tauto

/-- C10: `fossil_time_span_validate` returns false whenever any of
hours, minutes or seconds is negative (in addition to rejecting
hours >= 24, minutes >= 60, seconds >= 60), regardless of the precision
mask; consequently a span with a negative clock rung — such as one
produced by field-wise `fossil_time_span_sub` — fails validation. -/
theorem span_validate_rejects_negative (s : Span) (m : Nat) :
    (fossil_time_span_validate s = true ↔
      (0 ≤ s.hours ∧ s.hours < 24 ∧ 0 ≤ s.minutes ∧ s.minutes < 60 ∧
       0 ≤ s.seconds ∧ s.seconds < 60))
    ∧ fossil_time_span_validate { s with precision_mask := m }
      = fossil_time_span_validate s
    ∧ (∀ t : Span, t.hours < 0 ∨ t.minutes < 0 ∨ t.seconds < 0 →
        fossil_time_span_validate t = false)
    ∧ (∀ a b : Span,
        (fossil_time_span_sub a b).hours < 0 ∨
        (fossil_time_span_sub a b).minutes < 0 ∨
        (fossil_time_span_sub a b).seconds < 0 →
        fossil_time_span_validate (fossil_time_span_sub a b) = false) := by
  refine ⟨?_, rfl, ?_, ?_⟩
  · unfold fossil_time_span_validate
    split_ifs <;> simp_all <;> omega
  · intro t ht
    unfold fossil_time_span_validate
    split_ifs <;> simp_all <;> omega
  · intro a b h
    unfold fossil_time_span_validate
    split_ifs <;> simp_all <;> omega

/-- C7: `fossil_time_span_add` and `fossil_time_span_sub` combine every
rung independently by field-wise addition/subtraction with no borrowing
between rungs (a rung of a subtraction can go negative), and the result
mask is the bitwise OR of the operand masks.  Adding
{days=1,h=2,m=3,s=4} and {days=2,h=3,m=4,s=5} yields
{days=3,h=5,m=7,s=9}; subtracting the second from the first yields -1 on
each of the four populated rungs (and 0 on the untouched sub-second
rungs). -/
theorem span_add_sub_fieldwise (a b : Span) :
    ((fossil_time_span_add a b).days = a.days + b.days
      ∧ (fossil_time_span_add a b).hours = a.hours + b.hours
      ∧ (fossil_time_span_add a b).minutes = a.minutes + b.minutes
      ∧ (fossil_time_span_add a b).seconds = a.seconds + b.seconds
      ∧ (fossil_time_span_add a b).milliseconds = a.milliseconds + b.milliseconds
      ∧ (fossil_time_span_add a b).microseconds = a.microseconds + b.microseconds
      ∧ (fossil_time_span_add a b).nanoseconds = a.nanoseconds + b.nanoseconds
      ∧ (fossil_time_span_add a b).picoseconds = a.picoseconds + b.picoseconds
      ∧ (fossil_time_span_add a b).femtoseconds = a.femtoseconds + b.femtoseconds
      ∧ (fossil_time_span_add a b).attoseconds = a.attoseconds + b.attoseconds
      ∧ (fossil_time_span_add a b).zeptoseconds = a.zeptoseconds + b.zeptoseconds
      ∧ (fossil_time_span_add a b).yoctoseconds = a.yoctoseconds + b.yoctoseconds
      ∧ (fossil_time_span_add a b).precision_mask
        = (a.precision_mask ||| b.precision_mask))
    ∧ ((fossil_time_span_sub a b).days = a.days - b.days
      ∧ (fossil_time_span_sub a b).hours = a.hours - b.hours
      ∧ (fossil_time_span_sub a b).minutes = a.minutes - b.minutes
      ∧ (fossil_time_span_sub a b).seconds = a.seconds - b.seconds
      ∧ (fossil_time_span_sub a b).milliseconds = a.milliseconds - b.milliseconds
      ∧ (fossil_time_span_sub a b).microseconds = a.microseconds - b.microseconds
      ∧ (fossil_time_span_sub a b).nanoseconds = a.nanoseconds - b.nanoseconds
      ∧ (fossil_time_span_sub a b).picoseconds = a.picoseconds - b.picoseconds
      ∧ (fossil_time_span_sub a b).femtoseconds = a.femtoseconds - b.femtoseconds
      ∧ (fossil_time_span_sub a b).attoseconds = a.attoseconds - b.attoseconds
      ∧ (fossil_time_span_sub a b).zeptoseconds = a.zeptoseconds - b.zeptoseconds
      ∧ (fossil_time_span_sub a b).yoctoseconds = a.yoctoseconds - b.yoctoseconds
      ∧ (fossil_time_span_sub a b).precision_mask
        = (a.precision_mask ||| b.precision_mask))
    ∧ fossil_time_span_add
        (mkSpan 1 2 3 4 0 0 0 SPAN_PRECISION_DAYS)
        (mkSpan 2 3 4 5 0 0 0 SPAN_PRECISION_SECONDS)
      = mkSpan 3 5 7 9 0 0 0 (SPAN_PRECISION_DAYS ||| SPAN_PRECISION_SECONDS)
    ∧ fossil_time_span_sub
        (mkSpan 1 2 3 4 0 0 0 SPAN_PRECISION_DAYS)
        (mkSpan 2 3 4 5 0 0 0 SPAN_PRECISION_SECONDS)
      = mkSpan (-1) (-1) (-1) (-1) 0 0 0
          (SPAN_PRECISION_DAYS ||| SPAN_PRECISION_SECONDS) := by
  refine ⟨?_, ?_, by decide, by decide⟩
  · unfold fossil_time_span_add
    repeat constructor
  · unfold fossil_time_span_sub
    repeat constructor

/-- C6: `fossil_time_span_normalize` ripple-carries from nanoseconds
upward (nanoseconds into microseconds, microseconds into milliseconds,
milliseconds into seconds, seconds into minutes, minutes into hours,
hours into days) with truncating division and modulo at each step,
preserving the total carried quantity, never reading or updating the
precision mask (and leaving the rungs below nanoseconds untouched);
normalize on {hours=23, minutes=59, seconds=59, ms=999, us=999, ns=1001}
yields {ns=1, us=0, ms=0, s=0, m=0, h=0} with days incremented by 1. -/
theorem span_normalize_ripple_carry (s : Span) (m : Nat) (d0 : Int) :
    ((fossil_time_span_normalize s).nanoseconds = s.nanoseconds.tmod 1000
      ∧ (fossil_time_span_normalize s).microseconds
        = (s.microseconds + s.nanoseconds.tdiv 1000).tmod 1000
      ∧ (fossil_time_span_normalize s).milliseconds
        = (s.milliseconds + (s.microseconds + s.nanoseconds.tdiv 1000).tdiv 1000).tmod 1000
      ∧ (fossil_time_span_normalize s).seconds
        = (s.seconds + (s.milliseconds
            + (s.microseconds + s.nanoseconds.tdiv 1000).tdiv 1000).tdiv 1000).tmod 60
      ∧ (fossil_time_span_normalize s).minutes
        = (s.minutes + (s.seconds + (s.milliseconds
            + (s.microseconds + s.nanoseconds.tdiv 1000).tdiv 1000).tdiv 1000).tdiv 60).tmod 60
      ∧ (fossil_time_span_normalize s).hours
        = (s.hours + (s.minutes + (s.seconds + (s.milliseconds
            + (s.microseconds + s.nanoseconds.tdiv 1000).tdiv 1000).tdiv 1000).tdiv 60).tdiv 60).tmod 24
      ∧ (fossil_time_span_normalize s).days
        = s.days + (s.hours + (s.minutes + (s.seconds + (s.milliseconds
            + (s.microseconds + s.nanoseconds.tdiv 1000).tdiv 1000).tdiv 1000).tdiv 60).tdiv 60).tdiv 24)
    ∧ spanCarriedNs (fossil_time_span_normalize s) = spanCarriedNs s
    ∧ (fossil_time_span_normalize s).precision_mask = s.precision_mask
    ∧ fossil_time_span_normalize { s with precision_mask := m }
      = { fossil_time_span_normalize s with precision_mask := m }
    ∧ ((fossil_time_span_normalize s).picoseconds = s.picoseconds
      ∧ (fossil_time_span_normalize s).femtoseconds = s.femtoseconds
      ∧ (fossil_time_span_normalize s).attoseconds = s.attoseconds
      ∧ (fossil_time_span_normalize s).zeptoseconds = s.zeptoseconds
      ∧ (fossil_time_span_normalize s).yoctoseconds = s.yoctoseconds)
    ∧ fossil_time_span_normalize (mkSpan d0 23 59 59 999 999 1001 m)
      = mkSpan (d0 + 1) 0 0 0 0 0 1 m := by
  refine ⟨⟨rfl, rfl, rfl, rfl, rfl, rfl, rfl⟩, ?_, rfl, rfl, ⟨rfl, rfl, rfl, rfl, rfl⟩, ?_⟩
  · unfold spanCarriedNs fossil_time_span_normalize
    simp only []
    have h1 := Int.tdiv_add_tmod s.nanoseconds 1000
    have h2 := Int.tdiv_add_tmod (s.microseconds + s.nanoseconds.tdiv 1000) 1000
    have h3 := Int.tdiv_add_tmod
      (s.milliseconds + (s.microseconds + s.nanoseconds.tdiv 1000).tdiv 1000) 1000
    have h4 := Int.tdiv_add_tmod
      (s.seconds + (s.milliseconds
        + (s.microseconds + s.nanoseconds.tdiv 1000).tdiv 1000).tdiv 1000) 60
    have h5 := Int.tdiv_add_tmod
      (s.minutes + (s.seconds + (s.milliseconds
        + (s.microseconds + s.nanoseconds.tdiv 1000).tdiv 1000).tdiv 1000).tdiv 60) 60
    have h6 := Int.tdiv_add_tmod
      (s.hours + (s.minutes + (s.seconds + (s.milliseconds
        + (s.microseconds + s.nanoseconds.tdiv 1000).tdiv 1000).tdiv 1000).tdiv 60).tdiv 60) 24
    linarith
  · unfold fossil_time_span_normalize mkSpan
    have h : (23 + (59 + (59 + (999 + (999
        + Int.tdiv 1001 1000).tdiv 1000).tdiv 1000).tdiv 60).tdiv 60).tdiv 24 = (1 : Int) := by
      decide
    congr 1 <;> first | rfl | decide | omega

/-- C2 counterexample: `fossil_time_date_normalize` on 2024-06-01 with
an *empty* precision mask still recomputes weekday=6 and yearday=153
(the claim asserts both become -1 when the YEAR/MONTH/DAY bits are
absent). -/
theorem normalize_empty_mask_cex :
    (fossil_time_date_normalize (mkDate 2024 6 1 0 0 0 0)).weekday = 6
    ∧ (fossil_time_date_normalize (mkDate 2024 6 1 0 0 0 0)).yearday = 153 := by
  constructor <;> decide

/-- C2 (amended): `fossil_time_date_normalize` recomputes weekday and
yearday from year/month/day unconditionally — it neither reads nor
writes the precision mask and alters no other field; the mask-gated
recomputation described by the claim is implemented by
`fossil_time_calendar_compute_derived`, which recomputes exactly when
the YEAR, MONTH and DAY bits are all present and sets both fields to -1
otherwise.  On 2024-06-01, normalize yields weekday 6 and yearday 153 under
any mask (empty included), compute_derived yields 6/153 under
YEAR|MONTH|DAY and (-1, -1) under the empty mask. -/
theorem normalize_vs_compute_derived (dt : Date) (m : Nat) :
    fossil_time_date_normalize { dt with precision_mask := m }
      = { fossil_time_date_normalize dt with precision_mask := m }
    ∧ ((fossil_time_date_normalize dt).year = dt.year
      ∧ (fossil_time_date_normalize dt).month = dt.month
      ∧ (fossil_time_date_normalize dt).day = dt.day
      ∧ (fossil_time_date_normalize dt).hour = dt.hour
      ∧ (fossil_time_date_normalize dt).minute = dt.minute
      ∧ (fossil_time_date_normalize dt).second = dt.second
      ∧ (fossil_time_date_normalize dt).precision_mask = dt.precision_mask)
    ∧ (hasBit dt.precision_mask PRECISION_YEAR = true →
       hasBit dt.precision_mask PRECISION_MONTH = true →
       hasBit dt.precision_mask PRECISION_DAY = true →
       fossil_time_calendar_compute_derived dt
         = { dt with weekday := compute_weekday dt.year dt.month dt.day,
                     yearday := compute_yearday dt.year dt.month dt.day })
    ∧ (¬(hasBit dt.precision_mask PRECISION_YEAR = true ∧
         hasBit dt.precision_mask PRECISION_MONTH = true ∧
         hasBit dt.precision_mask PRECISION_DAY = true) →
       fossil_time_calendar_compute_derived dt
         = { dt with weekday := -1, yearday := -1 })
    ∧ ((fossil_time_date_normalize (mkDate 2024 6 1 0 0 0 MASK_YMD)).weekday = 6
      ∧ (fossil_time_date_normalize (mkDate 2024 6 1 0 0 0 MASK_YMD)).yearday = 153)
    ∧ ((fossil_time_date_normalize (mkDate 2024 6 1 0 0 0 0)).weekday = 6
      ∧ (fossil_time_date_normalize (mkDate 2024 6 1 0 0 0 0)).yearday = 153)
    ∧ ((fossil_time_calendar_compute_derived (mkDate 2024 6 1 0 0 0 MASK_YMD)).weekday = 6
      ∧ (fossil_time_calendar_compute_derived (mkDate 2024 6 1 0 0 0 MASK_YMD)).yearday = 153)
    ∧ ((fossil_time_calendar_compute_derived (mkDate 2024 6 1 0 0 0 0)).weekday = -1
      ∧ (fossil_time_calendar_compute_derived (mkDate 2024 6 1 0 0 0 0)).yearday = -1) := by
  refine ⟨rfl, ⟨rfl, rfl, rfl, rfl, rfl, rfl, rfl⟩, ?_, ?_,
    ⟨by decide, by decide⟩, ⟨by decide, by decide⟩, ⟨by decide, by decide⟩,
    ⟨by decide, by decide⟩⟩
  · intro h1 h2 h3
    unfold fossil_time_calendar_compute_derived
    rw [if_pos]
    rw [h1, h2, h3]
    rfl
  · intro h
    unfold fossil_time_calendar_compute_derived
    cases hb : (hasBit dt.precision_mask PRECISION_YEAR &&
        hasBit dt.precision_mask PRECISION_MONTH &&
        hasBit dt.precision_mask PRECISION_DAY) with
    | false => simp
    | true =>
      rw [Bool.and_eq_true, Bool.and_eq_true] at hb
      exact absurd ⟨hb.1.1, hb.1.2, hb.2⟩ h

/-- C2 witness: the amended statement applied at 2024-06-01 with the
YEAR|MONTH|DAY mask, discharging the mask-bit hypotheses. -/
theorem normalize_vs_compute_derived_witness :
    fossil_time_calendar_compute_derived (mkDate 2024 6 1 0 0 0 MASK_YMD)
      = { mkDate 2024 6 1 0 0 0 MASK_YMD with
            weekday := compute_weekday 2024 6 1, yearday := compute_yearday 2024 6 1 } :=
  (normalize_vs_compute_derived (mkDate 2024 6 1 0 0 0 MASK_YMD) 0).2.2.1
    (by decide) (by decide) (by decide)

/-- C3 (code behaviour at the claim's input): the final
`fossil_time_date_format` never writes `"invalid_date"`; with the
YMDHMS mask on 2024-06-01T12:34:56 every recognised or unrecognised
`format_id` — `"unknown"` included, and even `"log"`, since output was
already written — produces the mask-driven rendering
`"2024-06-01T12:34:56Z"`.  The repository's own tests and the spec
require `format(dt,"unknown")` to yield `"invalid_date"` instead. -/
theorem format_unknown_not_invalid_date :
    fossil_time_date_format (mkDate 2024 6 1 12 34 56 MASK_YMDHMS) "unknown"
      = "2024-06-01T12:34:56Z"
    ∧ fossil_time_date_format (mkDate 2024 6 1 12 34 56 MASK_YMDHMS) "unknown"
      ≠ "invalid_date"
    ∧ fossil_time_date_format (mkDate 2024 6 1 12 34 56 MASK_YMDHMS) "log"
      = "2024-06-01T12:34:56Z"
    ∧ fossil_time_date_format (mkDate 2024 6 1 12 34 56 MASK_YMDHMS) "iso"
      = "2024-06-01T12:34:56Z" :=
  ⟨by decide, by decide, by decide, by decide⟩

/-- C9: `fossil_time_date_search` with query `"weekend"` returns true
exactly when the date's weekday field is 0 (Sunday) or 6 (Saturday),
for every date and every (possibly absent) reference `now`; the query
`"is weekend"` behaves identically. -/
theorem search_weekend_iff (dt : Date) (now : Option Date) :
    fossil_time_date_search dt now "weekend" = (dt.weekday == 0 || dt.weekday == 6)
    ∧ fossil_time_date_search dt now "is weekend" = (dt.weekday == 0 || dt.weekday == 6) := by
  constructor <;>
  · unfold fossil_time_date_search
    simp only [show (("weekend" : String) == "today") = false from by decide,
      show (("weekend" : String) == "this day") = false from by decide,
      show (("is weekend" : String) == "today") = false from by decide,
      show (("is weekend" : String) == "this day") = false from by decide,
      Bool.or_self, Bool.or_false, Bool.false_or, Bool.and_false]
    rw [if_neg (by decide), if_neg (by decide), if_pos (by decide)]

theorem tdiv_floor400 (t : Int) : (if 0 ≤ t then t else t - 399).tdiv 400 = t / 400 := by
  split_ifs with h
  · exact Int.tdiv_eq_ediv h (by norm_num)
  · rw [show t - 399 = -(399 - t) from by ring, Int.neg_tdiv,
      Int.tdiv_eq_ediv (by omega) (by norm_num)]
    omega

theorem tdiv_floor146097 (t : Int) :
    (if 0 ≤ t then t else t - 146096).tdiv 146097 = t / 146097 := by
  split_ifs with h
  · exact Int.tdiv_eq_ediv h (by norm_num)
  · rw [show t - 146096 = -(146096 - t) from by ring, Int.neg_tdiv,
      Int.tdiv_eq_ediv (by omega) (by norm_num)]
    omega

theorem is_leap_iff (t : Int) :
    is_leap t = true ↔ ((4 ∣ t ∧ ¬(100 ∣ t)) ∨ 400 ∣ t) := by
  unfold is_leap
  simp only [Bool.or_eq_true, Bool.and_eq_true, beq_iff_eq, bne_iff_ne, ne_eq]
  rw [← Int.dvd_iff_tmod_eq_zero, ← Int.dvd_iff_tmod_eq_zero, ← Int.dvd_iff_tmod_eq_zero]

theorem yoe_recover (yoe doy doe : Int) (h1 : 0 ≤ yoe) (h1' : yoe ≤ 399)
    (h2 : 0 ≤ doy) (h2' : doy ≤ 365)
    (h3 : doy = 365 → (4 ∣ (yoe + 1) ∧ (¬(100 ∣ (yoe + 1)) ∨ yoe + 1 = 400)))
    (hdoe : doe = 365 * yoe + yoe / 4 - yoe / 100 + doy) :
    (doe - doe / 1460 + doe / 36524 - doe / 146096) / 365 = yoe := by
  obtain ⟨c, q, s, hc, hc', hq, hq', hs, hs', hyoe⟩ :
      ∃ c q s : Int, 0 ≤ c ∧ c ≤ 3 ∧ 0 ≤ q ∧ q ≤ 24 ∧ 0 ≤ s ∧ s ≤ 3 ∧
        yoe = 100 * c + 4 * q + s :=
    ⟨yoe / 100, yoe % 100 / 4, yoe % 100 % 4, by omega, by omega, by omega, by omega,
      by omega, by omega, by omega⟩
  have h4 : yoe / 4 = 25 * c + q := by omega
  have h100 : yoe / 100 = c := by omega
  have hdoe' : doe = 36524 * c + 1461 * q + 365 * s + doy := by omega
  by_cases hend : c = 3 ∧ q = 24 ∧ s = 3 ∧ doy = 365
  · have h146096 : doe = 146096 := by omega
    rw [h146096, hyoe, hend.1, hend.2.1, hend.2.2.1]
    decide
  · have hrest : 1461 * q + 365 * s + doy ≤ 36523 := by
      by_cases hdoy : doy = 365
      · have := h3 hdoy
        omega
      · omega
    have h36524 : doe / 36524 = c := by omega
    have h146096 : doe / 146096 = 0 := by omega
    rcases lt_or_ge (24 * c + q + 365 * s + doy) 1460 with hcar | hcar
    · have h1460 : doe / 1460 = 25 * c + q := by omega
      omega
    · have h1460 : doe / 1460 = 25 * c + q + 1 := by omega
      omega

theorem days_from_civil_affine (y m d : Int) (hm1 : 1 ≤ m) (hm2 : m ≤ 12) :
    fossil_time_days_from_civil y m d
      = 365 * (y - (if m ≤ 2 then 1 else 0)) + (y - (if m ≤ 2 then 1 else 0)) / 4
        - (y - (if m ≤ 2 then 1 else 0)) / 100 + (y - (if m ≤ 2 then 1 else 0)) / 400
        + (153 * (m + (if 2 < m then -3 else 9)) + 2) / 5 + d - 1 - 719468 := by
  unfold fossil_time_days_from_civil
  simp only [tdiv_floor400]
  rw [Int.tdiv_eq_ediv (by omega) (by norm_num),
      Int.tdiv_eq_ediv (by omega) (by norm_num),
      Int.tdiv_eq_ediv (by split_ifs <;> omega) (by norm_num)]
  omega

theorem civilFromDays_affine (E yoe1 doy0 mp : Int)
    (hyoe : 0 ≤ yoe1 ∧ yoe1 ≤ 399)
    (hmp : 0 ≤ mp ∧ mp ≤ 11)
    (hdoy0 : 0 ≤ doy0 ∧ doy0 ≤ 365)
    (hleap : doy0 = 365 → (4 ∣ (yoe1 + 1) ∧ (¬(100 ∣ (yoe1 + 1)) ∨ yoe1 + 1 = 400)))
    (hmp_eq : (5 * doy0 + 2) / 153 = mp) :
    civilFromDays (146097 * E + (365 * yoe1 + yoe1 / 4 - yoe1 / 100 + doy0) - 719468)
      = (yoe1 + E * 400 + (if mp + (if mp < 10 then 3 else -9) ≤ 2 then 1 else 0),
         mp + (if mp < 10 then 3 else -9),
         doy0 - (153 * mp + 2) / 5 + 1) := by
  have hdoe_lo : 0 ≤ 365 * yoe1 + yoe1 / 4 - yoe1 / 100 + doy0 := by omega
  have hdoe_hi : 365 * yoe1 + yoe1 / 4 - yoe1 / 100 + doy0 ≤ 146096 := by omega
  unfold civilFromDays
  simp only [tdiv_floor146097]
  have hz : 146097 * E + (365 * yoe1 + yoe1 / 4 - yoe1 / 100 + doy0) - 719468 + 719468
      = 146097 * E + (365 * yoe1 + yoe1 / 4 - yoe1 / 100 + doy0) := by ring
  rw [hz]
  have hera : (146097 * E + (365 * yoe1 + yoe1 / 4 - yoe1 / 100 + doy0)) / 146097 = E := by
    omega
  rw [hera]
  have hdoe : 146097 * E + (365 * yoe1 + yoe1 / 4 - yoe1 / 100 + doy0) - E * 146097
      = 365 * yoe1 + yoe1 / 4 - yoe1 / 100 + doy0 := by ring
  rw [hdoe]
  rw [Int.tdiv_eq_ediv hdoe_lo (by norm_num), Int.tdiv_eq_ediv hdoe_lo (by norm_num),
    Int.tdiv_eq_ediv hdoe_lo (by norm_num)]
  rw [Int.tdiv_eq_ediv (by omega) (by norm_num)]
  rw [yoe_recover yoe1 doy0 _ hyoe.1 hyoe.2 hdoy0.1 hdoy0.2 hleap rfl]
  rw [Int.tdiv_eq_ediv hyoe.1 (by norm_num), Int.tdiv_eq_ediv hyoe.1 (by norm_num)]
  have hdoy : 365 * yoe1 + yoe1 / 4 - yoe1 / 100 + doy0
      - (365 * yoe1 + yoe1 / 4 - yoe1 / 100) = doy0 := by ring
  rw [hdoy]
  rw [Int.tdiv_eq_ediv (by omega) (by norm_num), hmp_eq]
  rw [Int.tdiv_eq_ediv (by omega) (by norm_num)]

theorem roundtrip_glue (y1 C d bl mp : Int)
    (hC : C = (153 * mp + 2) / 5)
    (hmp : 0 ≤ mp ∧ mp ≤ 11)
    (hd1 : 1 ≤ d)
    (hhi : C + d - 1 ≤ 365)
    (hleap : C + d - 1 = 365 → (4 ∣ y1 + 1 ∧ (¬(100 ∣ y1 + 1) ∨ 400 ∣ y1 + 1)))
    (hmp_eq : (5 * (C + d - 1) + 2) / 153 = mp)
    (hbl : bl = if mp + (if mp < 10 then 3 else -9) ≤ 2 then 1 else 0) :
    civilFromDays (365 * y1 + y1 / 4 - y1 / 100 + y1 / 400 + C + d - 1 - 719468)
      = (y1 + bl, mp + (if mp < 10 then 3 else -9), d) := by
  have hC0 : 0 ≤ C := by omega
  have hE : 365 * y1 + y1 / 4 - y1 / 100 + y1 / 400 + C + d - 1 - 719468
      = 146097 * (y1 / 400) + (365 * (y1 - 400 * (y1 / 400))
          + (y1 - 400 * (y1 / 400)) / 4
          - (y1 - 400 * (y1 / 400)) / 100 + (C + d - 1)) - 719468 := by
    omega
  rw [hE]
  rw [civilFromDays_affine (y1 / 400) (y1 - 400 * (y1 / 400)) (C + d - 1) mp
      ⟨by omega, by omega⟩ hmp ⟨by omega, hhi⟩ ?_ hmp_eq]
  · simp only [Prod.mk.injEq]
    refine ⟨by rw [hbl]; omega, trivial, by omega⟩
  · intro h365
    obtain ⟨hv4, hv⟩ := hleap h365
    refine ⟨by omega, ?_⟩
    rcases hv with hv | hv
    · left
      omega
    · right
      omega

theorem dim_eval_feb (y : Int) :
    days_in_month y 2 = if is_leap y then 29 else 28 := by
  unfold days_in_month
  norm_num

theorem doy_le_365 (y m d : Int) (h1 : 1 ≤ m) (h2 : m ≤ 12)
    (hd : d ≤ days_in_month y m) :
    (153 * (m + (if 2 < m then -3 else 9)) + 2) / 5 + d - 1 ≤ 365 := by
  have e1 : days_in_month y 1 = 31 := rfl
  have e2 := dim_eval_feb y
  have e3 : days_in_month y 3 = 31 := rfl
  have e4 : days_in_month y 4 = 30 := rfl
  have e5 : days_in_month y 5 = 31 := rfl
  have e6 : days_in_month y 6 = 30 := rfl
  have e7 : days_in_month y 7 = 31 := rfl
  have e8 : days_in_month y 8 = 31 := rfl
  have e9 : days_in_month y 9 = 30 := rfl
  have e10 : days_in_month y 10 = 31 := rfl
  have e11 : days_in_month y 11 = 30 := rfl
  have e12 : days_in_month y 12 = 31 := rfl
  interval_cases m <;> split_ifs at * <;> omega

theorem doy_eq_365_leap (y m d : Int) (h1 : 1 ≤ m) (h2 : m ≤ 12) (hd1 : 1 ≤ d)
    (hd : d ≤ days_in_month y m)
    (h365 : (153 * (m + (if 2 < m then -3 else 9)) + 2) / 5 + d - 1 = 365) :
    4 ∣ (y - (if m ≤ 2 then 1 else 0)) + 1
      ∧ (¬(100 ∣ (y - (if m ≤ 2 then 1 else 0)) + 1)
         ∨ 400 ∣ (y - (if m ≤ 2 then 1 else 0)) + 1) := by
  have e1 : days_in_month y 1 = 31 := rfl
  have e3 : days_in_month y 3 = 31 := rfl
  have e4 : days_in_month y 4 = 30 := rfl
  have e5 : days_in_month y 5 = 31 := rfl
  have e6 : days_in_month y 6 = 30 := rfl
  have e7 : days_in_month y 7 = 31 := rfl
  have e8 : days_in_month y 8 = 31 := rfl
  have e9 : days_in_month y 9 = 30 := rfl
  have e10 : days_in_month y 10 = 31 := rfl
  have e11 : days_in_month y 11 = 30 := rfl
  have e12 : days_in_month y 12 = 31 := rfl
  have hm2 : m = 2 := by
    by_contra hne
    interval_cases m <;> split_ifs at * <;> omega
  subst hm2
  rw [dim_eval_feb] at hd
  have hleap : is_leap y = true := by
    rcases hy : is_leap y with _ | _
    · rw [hy] at hd
      norm_num at hd h365
      omega
    · rfl
  have hdvd := (is_leap_iff y).mp hleap
  norm_num
  rcases hdvd with ⟨h4, h100⟩ | h400
  · exact ⟨by omega, Or.inl (by omega)⟩
  · exact ⟨by omega, Or.inr (by omega)⟩

theorem mp_recover (y m d : Int) (h1 : 1 ≤ m) (h2 : m ≤ 12) (hd1 : 1 ≤ d)
    (hd : d ≤ days_in_month y m) :
    (5 * ((153 * (m + (if 2 < m then -3 else 9)) + 2) / 5 + d - 1) + 2) / 153
      = m + (if 2 < m then -3 else 9) := by
  have e1 : days_in_month y 1 = 31 := rfl
  have e2 := dim_eval_feb y
  have e3 : days_in_month y 3 = 31 := rfl
  have e4 : days_in_month y 4 = 30 := rfl
  have e5 : days_in_month y 5 = 31 := rfl
  have e6 : days_in_month y 6 = 30 := rfl
  have e7 : days_in_month y 7 = 31 := rfl
  have e8 : days_in_month y 8 = 31 := rfl
  have e9 : days_in_month y 9 = 30 := rfl
  have e10 : days_in_month y 10 = 31 := rfl
  have e11 : days_in_month y 11 = 30 := rfl
  have e12 : days_in_month y 12 = 31 := rfl
  interval_cases m <;> split_ifs at * <;> omega

theorem civil_roundtrip (y m d : Int) (hm1 : 1 ≤ m) (hm2 : m ≤ 12)
    (hd1 : 1 ≤ d) (hd2 : d ≤ days_in_month y m) :
    civilFromDays (fossil_time_days_from_civil y m d) = (y, m, d) := by
  rw [days_from_civil_affine y m d hm1 hm2]
  have hback : (m + (if 2 < m then -3 else 9))
      + (if (m + (if 2 < m then -3 else 9)) < 10 then 3 else -9) = m := by
    split_ifs <;> omega
  have hbl : (if m ≤ 2 then 1 else 0)
      = if (m + (if 2 < m then -3 else 9))
          + (if (m + (if 2 < m then -3 else 9)) < 10 then 3 else -9) ≤ 2
        then (1 : Int) else 0 := by
    rw [hback]
  rw [roundtrip_glue (y - (if m ≤ 2 then 1 else 0))
      ((153 * (m + (if 2 < m then -3 else 9)) + 2) / 5) d
      (if m ≤ 2 then 1 else 0) (m + (if 2 < m then -3 else 9))
      rfl
      ⟨by split_ifs <;> omega, by split_ifs <;> omega⟩
      hd1
      (doy_le_365 y m d hm1 hm2 hd2)
      (doy_eq_365_leap y m d hm1 hm2 hd1 hd2)
      (mp_recover y m d hm1 hm2 hd1 hd2)
      hbl]
  simp only [Prod.mk.injEq]
  refine ⟨by split_ifs <;> omega, hback, trivial⟩

theorem zeller_wrap_eq (t : Int) (ht : 0 ≤ t) :
    (t.tmod 7 + 6).tmod 7 = (t % 7 + 6) % 7 := by
  rw [Int.tmod_eq_emod ht (by norm_num)]
  rw [Int.tmod_eq_emod (by have := Int.emod_nonneg t (show (7:Int) ≠ 0 by norm_num); omega)
    (by norm_num)]

theorem zeller_days_congr (Y M mp d : Int) (hY : 0 ≤ Y) (hmp : 0 ≤ mp ∧ mp ≤ 11)
    (hM : M = mp + 3) :
    ((d + (13 * (M + 1)) / 5 + Y % 100 + (Y % 100) / 4 + (Y / 100) / 4
        + 5 * (Y / 100)) % 7 + 6) % 7
      = (365 * Y + Y / 4 - Y / 100 + Y / 400 + (153 * mp + 2) / 5 + d - 1 - 719468 + 4) % 7 := by
  subst hM
  obtain ⟨a, b, c, e, ha, hb, hb', hc, hc', he, he', hY⟩ :
      ∃ a b c e : Int, 0 ≤ a ∧ 0 ≤ b ∧ b ≤ 3 ∧ 0 ≤ c ∧ c ≤ 24 ∧ 0 ≤ e ∧ e ≤ 3 ∧
        Y = 400 * a + 100 * b + 4 * c + e :=
    ⟨Y / 400, Y % 400 / 100, Y % 100 / 4, Y % 4, by omega, by omega, by omega, by omega,
      by omega, by omega, by omega, by omega⟩
  have d1 : Y / 4 = 100 * a + 25 * b + c := by omega
  have d2 : Y / 100 = 4 * a + b := by omega
  have d3 : Y % 100 = 4 * c + e := by omega
  have d4 : (Y % 100) / 4 = c := by omega
  have d5 : (Y / 100) / 4 = a := by omega
  have d6 : Y / 400 = a := by omega
  obtain ⟨hmp1, hmp2⟩ := hmp
  interval_cases mp <;> omega

theorem weekday_cross_check (y m d : Int) (hy1 : 1 ≤ y) (hy2 : y ≤ 9999)
    (hm1 : 1 ≤ m) (hm2 : m ≤ 12) (hd1 : 1 ≤ d)
    (hd2 : d ≤ days_in_month y m) :
    compute_weekday y m d = epochWeekday y m d := by
  unfold compute_weekday epochWeekday
  rw [days_from_civil_affine y m d hm1 hm2]
  dsimp only
  by_cases hmlt : m < 3
  · rw [if_pos hmlt, if_pos hmlt, if_pos (show m ≤ 2 by omega),
      if_neg (show ¬(2 < m) by omega)]
    have hY : (0 : Int) ≤ y - 1 := by omega
    rw [Int.tmod_eq_emod hY (by norm_num)]
    rw [Int.tdiv_eq_ediv hY (by norm_num)]
    rw [Int.tdiv_eq_ediv (Int.emod_nonneg _ (by norm_num)) (by norm_num)]
    rw [Int.tdiv_eq_ediv (Int.ediv_nonneg hY (by norm_num)) (by norm_num)]
    rw [Int.tdiv_eq_ediv (by omega) (by norm_num)]
    rw [zeller_wrap_eq _ (by omega)]
    have hz := zeller_days_congr (y - 1) (m + 12) (m + 9) d hY ⟨by omega, by omega⟩
      (by ring)
    first
      | exact hz
      | omega
  · rw [if_neg hmlt, if_neg hmlt, if_neg (show ¬(m ≤ 2) by omega),
      if_pos (show 2 < m by omega)]
    have hY : (0 : Int) ≤ y := by omega
    rw [Int.tmod_eq_emod hY (by norm_num)]
    rw [Int.tdiv_eq_ediv hY (by norm_num)]
    rw [Int.tdiv_eq_ediv (Int.emod_nonneg _ (by norm_num)) (by norm_num)]
    rw [Int.tdiv_eq_ediv (Int.ediv_nonneg hY (by norm_num)) (by norm_num)]
    rw [Int.tdiv_eq_ediv (by omega) (by norm_num)]
    rw [zeller_wrap_eq _ (by omega)]
    have hz := zeller_days_congr y m (m - 3) d hY ⟨by omega, by omega⟩ (by ring)
    first
      | exact hz
      | omega

/-- C1: for every date whose precision mask is exactly
YEAR|MONTH|DAY|HOUR|MINUTE|SECOND, whose tz_offset_min is 0, and whose
fields are in legal range (month 1-12, day 1..days_in_month(year,month),
hour 0-23, minute 0-59, second 0-59),
`fossil_time_date_from_unix_seconds` applied to
`fossil_time_date_to_unix_seconds` reproduces the same year, month, day,
hour, minute and second. -/
theorem date_unix_roundtrip (dt : Date)
    (hmask : dt.precision_mask = MASK_YMDHMS)
    (htz : dt.tz_offset_min = 0)
    (hm : 1 ≤ dt.month ∧ dt.month ≤ 12)
    (hd : 1 ≤ dt.day ∧ dt.day ≤ days_in_month dt.year dt.month)
    (hh : 0 ≤ dt.hour ∧ dt.hour ≤ 23)
    (hmi : 0 ≤ dt.minute ∧ dt.minute ≤ 59)
    (hs : 0 ≤ dt.second ∧ dt.second ≤ 59) :
    (fossil_time_date_from_unix_seconds (fossil_time_date_to_unix_seconds dt)).year = dt.year
    ∧ (fossil_time_date_from_unix_seconds (fossil_time_date_to_unix_seconds dt)).month
      = dt.month
    ∧ (fossil_time_date_from_unix_seconds (fossil_time_date_to_unix_seconds dt)).day = dt.day
    ∧ (fossil_time_date_from_unix_seconds (fossil_time_date_to_unix_seconds dt)).hour
      = dt.hour
    ∧ (fossil_time_date_from_unix_seconds (fossil_time_date_to_unix_seconds dt)).minute
      = dt.minute
    ∧ (fossil_time_date_from_unix_seconds (fossil_time_date_to_unix_seconds dt)).second
      = dt.second := by
  have ht : fossil_time_date_to_unix_seconds dt
      = fossil_time_days_from_civil dt.year dt.month dt.day * 86400
        + (dt.hour * 3600 + dt.minute * 60 + dt.second) := by
    unfold fossil_time_date_to_unix_seconds fossil_time_tm_to_epoch_utc
    rw [htz]
    ring
  have hdays : fossil_time_date_to_unix_seconds dt / 86400
      = fossil_time_days_from_civil dt.year dt.month dt.day := by
    rw [ht]
    omega
  have hrem : fossil_time_date_to_unix_seconds dt % 86400
      = dt.hour * 3600 + dt.minute * 60 + dt.second := by
    rw [ht]
    omega
  have hciv := civil_roundtrip dt.year dt.month dt.day hm.1 hm.2 hd.1 hd.2
  unfold fossil_time_date_from_unix_seconds gmtime_model
  dsimp only
  rw [hdays, hrem, hciv]
  exact ⟨rfl, rfl, rfl, by omega, by omega, by omega⟩

/-- C1 witness: the round trip evaluated at 2024-06-01T12:34:56 UTC with
the YMDHMS mask, hypotheses discharged concretely. -/
theorem date_unix_roundtrip_witness :
    ((mkDate 2024 6 1 12 34 56 MASK_YMDHMS).precision_mask = MASK_YMDHMS
      ∧ (mkDate 2024 6 1 12 34 56 MASK_YMDHMS).tz_offset_min = 0)
    ∧ (fossil_time_date_from_unix_seconds
        (fossil_time_date_to_unix_seconds (mkDate 2024 6 1 12 34 56 MASK_YMDHMS))).year
      = 2024 :=
  ⟨⟨by decide, by decide⟩,
    (date_unix_roundtrip (mkDate 2024 6 1 12 34 56 MASK_YMDHMS) (by decide) (by decide)
      ⟨by decide, by decide⟩ ⟨by decide, by decide⟩ ⟨by decide, by decide⟩
      ⟨by decide, by decide⟩ ⟨by decide, by decide⟩).1⟩

/-- C5: for every year in 1..9999, month 1..12 and day
1..days_in_month(year, month), the Zeller-congruence weekday computed by
calendar.c's `compute_weekday` (Sunday=0..Saturday=6) equals the weekday
derived from the epoch day count `fossil_time_days_from_civil` taken
modulo 7 with 1970-01-01 (day count 0) mapping to Thursday (4): the two
independent weekday computation paths agree exactly. -/
theorem weekday_paths_agree (y m d : Int) (hy : 1 ≤ y ∧ y ≤ 9999)
    (hm : 1 ≤ m ∧ m ≤ 12) (hd : 1 ≤ d ∧ d ≤ days_in_month y m) :
    compute_weekday y m d = epochWeekday y m d
    ∧ fossil_time_days_from_civil 1970 1 1 = 0
    ∧ epochWeekday 1970 1 1 = 4 :=
  ⟨weekday_cross_check y m d hy.1 hy.2 hm.1 hm.2 hd.1 hd.2, by decide, by decide⟩

/-- C5 witness: the two weekday paths evaluated at 2024-02-29 (a leap
day), hypotheses discharged concretely. -/
theorem weekday_paths_agree_witness :
    ((1 : Int) ≤ 2024 ∧ (29 : Int) ≤ days_in_month 2024 2)
    ∧ compute_weekday 2024 2 29 = epochWeekday 2024 2 29 :=
  ⟨⟨by decide, by decide⟩,
    (weekday_paths_agree 2024 2 29 ⟨by decide, by decide⟩ ⟨by decide, by decide⟩
      ⟨by decide, by decide⟩).1⟩

/-- C10 witness: span validation applied to the field-wise difference
{days=1,h=2,m=3,s=4} - {days=2,h=3,m=4,s=5}, whose hours rung is -1. -/
theorem span_validate_rejects_negative_witness :
    (fossil_time_span_sub (mkSpan 1 2 3 4 0 0 0 1) (mkSpan 2 3 4 5 0 0 0 8)).hours < 0
    ∧ fossil_time_span_validate
        (fossil_time_span_sub (mkSpan 1 2 3 4 0 0 0 1) (mkSpan 2 3 4 5 0 0 0 8)) = false :=
  ⟨by decide,
    (span_validate_rejects_negative (mkSpan 0 0 0 0 0 0 0 0) 0).2.2.2
      (mkSpan 1 2 3 4 0 0 0 1) (mkSpan 2 3 4 5 0 0 0 8) (Or.inl (by decide))⟩

end Fossil